import Mathlib

/-!
Verification development for the StashCache authorization-artifact generators
(`src/stashcache.py`, `src/webapp/data_federation.py`, `src/webapp/vos_data.py`).

The Python data model and the generator algorithms are shallowly embedded as
executable Lean definitions.  Python dicts that preserve insertion order are
modelled as association lists; Python sets are modelled as duplicate-free lists
(`addToSet`); Python exceptions are modelled with `Except String`.
The in-place mutation of `namespace.authz_list` performed by
`generate_cache_authfile` (the Python `+=` on an aliased list) is modelled by
returning the updated registry alongside the generated text.
-/

set_option autoImplicit false

/-! ## Generic helpers: ordered association lists and Python-set-as-list -/

/-- Lookup in an insertion-ordered association list (Python `d[k]` / `k in d`). -/
def lookupAssoc {α : Type} (k : String) : List (String × α) → Option α
  | [] => none
  | p :: rest => if k = p.1 then some p.2 else lookupAssoc k rest

/-- Insert-or-replace in an association list, keeping the position of an
existing key (Python `d[k] = v` on a dict). -/
def upsertAssoc {α : Type} (k : String) (v : α) : List (String × α) → List (String × α)
  | [] => [(k, v)]
  | p :: rest => if k = p.1 then (k, v) :: rest else p :: upsertAssoc k v rest

/-- Add an element to a duplicate-free list (Python `s.add(x)` on a set). -/
def addToSet (s : String) (l : List String) : List String :=
  if s ∈ l then l else l ++ [s]

/-- Collapse a list into a duplicate-free list (Python `set(l)`). -/
def setOfList (l : List String) : List String :=
  l.foldl (fun acc s => addToSet s acc) []

/-- `defaultdict(set)` keyed by authfile id: add `dir` to the dir-set of `id`,
creating the entry at the end if the id is new (Python dict insertion order). -/
def addDir (id dir : String) : List (String × List String) → List (String × List String)
  | [] => [(id, [dir])]
  | p :: rest => if id = p.1 then (p.1, addToSet dir p.2) :: rest else p :: addDir id dir rest

/-- Insert a string into a lexicographically sorted list. -/
def insertSorted (s : String) : List String → List String
  | [] => [s]
  | t :: ts => if t < s then t :: insertSorted s ts else s :: t :: ts

/-- Lexicographic sort of a list of strings (Python `sorted(...)` on `str`). -/
def sortStrings (l : List String) : List String :=
  l.foldr insertSorted []

/-- Python `str.rstrip()`: remove trailing whitespace. -/
def rstrip (s : String) : String :=
  String.mk ((s.data.reverse.dropWhile Char.isWhitespace).reverse)

/-- Python `str.strip()`: remove leading and trailing whitespace. -/
def pyStrip (s : String) : String :=
  String.mk (((s.data.dropWhile Char.isWhitespace).reverse.dropWhile Char.isWhitespace).reverse)

/-- Python `str.startswith` (structural, over the character list). -/
def strStartsWith (s pre : String) : Bool :=
  pre.data.isPrefixOf s.data

/-- Python `str.endswith` (structural, over the character list). -/
def strEndsWith (s suf : String) : Bool :=
  suf.data.isSuffixOf s.data

/-- Python `str(bool)` rendering. -/
def pyBool (b : Bool) : String :=
  if b then "True" else "False"

/-! ## Constants (`webapp/vos_data.py` and `webapp/common.py`) -/

/-- Sentinel from `webapp/vos_data.py`: `ANY = "ANY"`. -/
def ANY : String := "ANY"

/-- Sentinel from `webapp/vos_data.py`: `ANY_PUBLIC = "ANY_PUBLIC"`. -/
def ANY_PUBLIC : String := "ANY_PUBLIC"

/-- Modelled from the spec: the service-name constant lives in
`webapp/common.py`, which is not under `src/`; only its identity and its
distinctness from the origin constant matter to the embedded code. -/
def XROOTD_CACHE_SERVER : String := "XRootD cache server"

/-- Modelled from the spec: the service-name constant lives in
`webapp/common.py`, which is not under `src/`. -/
def XROOTD_ORIGIN_SERVER : String := "XRootD origin server"

/-- Modelled from the spec: `generate_dn_hash` (from `webapp/x509.py`) is an
external collision-resistant hash of a certificate subject, "deterministic,
not reversible -- treat it as injected".  No claim depends on its value, so it
is modelled as an injected deterministic function. -/
def generate_dn_hash (dn : String) : String :=
  "<hash:" ++ dn ++ ">"

/-! ## AuthMethod variant model

Both `data_federation.py` and `vos_data.py` define the same closed set of
`AuthMethod` subclasses with identical flag constants
(`is_public`, `used_in_authfile`, `used_in_scitokens_conf`), identity strings
and `__str__`/scitokens-block serializations, so one inductive serves both. -/

inductive AuthMethod where
  | nullAuth : AuthMethod
  | publicAuth : AuthMethod
  | dnAuth (dn : String) : AuthMethod
  | fqanAuth (fqan : String) : AuthMethod
  | sciTokenAuth (issuer : String) (base_path : String)
      (restricted_path : Option String) (map_subject : Bool) : AuthMethod
deriving DecidableEq

/-- The per-subclass `is_public` class constant. -/
def AuthMethod.is_public : AuthMethod → Bool
  | .publicAuth => true
  | _ => false

/-- The per-subclass `used_in_authfile` class constant. -/
def AuthMethod.used_in_authfile : AuthMethod → Bool
  | .publicAuth => true
  | .dnAuth _ => true
  | .fqanAuth _ => true
  | _ => false

/-- The per-subclass `used_in_scitokens_conf` class constant. -/
def AuthMethod.used_in_scitokens_conf : AuthMethod → Bool
  | .sciTokenAuth _ _ _ _ => true
  | _ => false

/-- `get_authfile_id()`: the stable authfile identity string of each variant
(`vos_data.py`; `data_federation.py` computes the same `authfile_id`). -/
def AuthMethod.get_authfile_id : AuthMethod → String
  | .publicAuth => "u *"
  | .dnAuth dn => "u " ++ generate_dn_hash dn
  | .fqanAuth fqan => "g " ++ fqan
  | _ => ""

/-- `__str__`: the human-readable description used as a comment line. -/
def AuthMethod.describe : AuthMethod → String
  | .publicAuth => "PUBLIC"
  | .dnAuth dn => "DN: " ++ dn
  | .fqanAuth fqan => "FQAN: " ++ fqan
  | .sciTokenAuth issuer base_path restricted_path map_subject =>
      "SciToken: issuer=" ++ issuer ++ " base_path=" ++ base_path
        ++ " restricted_path=" ++ (match restricted_path with
                                   | some r => r
                                   | none => "None")
        ++ " map_subject=" ++ pyBool map_subject
  | .nullAuth => ""

/-- `SciTokenAuth.get_scitokens_conf_block` (identical in both copies): renders
the issuer block; raises `ValueError` for a service name that is neither the
cache nor the origin constant; the base class returns the empty string for the
other variants. -/
def AuthMethod.get_scitokens_conf_block (a : AuthMethod) (service_name : String) :
    Except String String :=
  match a with
  | .sciTokenAuth issuer base_path restricted_path map_subject =>
      if service_name ≠ XROOTD_CACHE_SERVER ∧ service_name ≠ XROOTD_ORIGIN_SERVER then
        .error ("ValueError: service_name must be " ++ XROOTD_CACHE_SERVER
                 ++ " or " ++ XROOTD_ORIGIN_SERVER)
      else
        .ok ("[Issuer " ++ issuer ++ "]\n"
          ++ "issuer = " ++ issuer ++ "\n"
          ++ "base_path = " ++ base_path ++ "\n"
          ++ (match restricted_path with
              | some r => if r ≠ "" then "restricted_path = " ++ r ++ "\n" else ""
              | none => "")
          ++ (if service_name = XROOTD_ORIGIN_SERVER then
                "map_subject = " ++ pyBool map_subject ++ "\n"
              else ""))
  | _ => .ok ""

/-! ## Namespace: the two copies

`vos_data.py` (the copy imported by `stashcache.py` and used by the
generators) checks only the FIRST authz entry in `is_public`;
`data_federation.py` checks ANY entry. -/

/-- `Namespace` as defined in `webapp/vos_data.py` (no credential generation). -/
structure VosData.Namespace where
  path : String
  vo_name : String
  allowed_origins : List String
  allowed_caches : List String
  authz_list : List AuthMethod
  writeback : Option String
  dirlist : Option String
deriving DecidableEq

/-- `vos_data.py` line 386: `return self.authz_list and self.authz_list[0].is_public`
(truthiness of the list, then the first entry's flag). -/
def VosData.Namespace.is_public (ns : VosData.Namespace) : Bool :=
  match ns.authz_list with
  | [] => false
  | a :: _ => a.is_public

/-- `CredentialGeneration` (`data_federation.py`), with the `.get` defaults of
`load_new_yaml` already applied (`Strategy`/`Issuer` default to the empty
string, the rest to `None`). -/
structure CredentialGeneration where
  strategy : String
  issuer : String
  max_scope_depth : Option Int
  vault_server : Option String
  base_path : Option String
  vault_issuer : Option String
deriving DecidableEq

/-- Modelled from the spec: `urllib.parse.urlparse` is a Python-library
external; the spec requires the issuer to be "an absolute `https` URL with a
non-empty host", i.e. `scheme == "https"` and a non-empty netloc. -/
def issuer_url_ok (issuer : String) : Bool :=
  strStartsWith issuer "https://"
    && !((issuer.drop 8).data.takeWhile (fun c => c ≠ '/')).isEmpty

/-- `CredentialGeneration.validate` (`data_federation.py` lines 141-186):
returns the set of error strings.  The `isinstance` checks on `Issuer` and
`BasePath` are vacuous in this typed embedding. -/
def CredentialGeneration.validate (cg : CredentialGeneration) : List String :=
  let errs : List String := []
  let errs := if cg.strategy ∉ ["OAuth2", "Vault"] then
      addToSet ("CredentialGeneration: invalid Strategy " ++ cg.strategy) errs
    else errs
  let errs := if cg.issuer = "" then
      addToSet "CredentialGeneration: Issuer not specified" errs
    else if ¬ issuer_url_ok cg.issuer then
      addToSet ("CredentialGeneration: Issuer not a valid URL " ++ cg.issuer) errs
    else errs
  let errs := match cg.max_scope_depth with
    | some d => if d ≠ 0 ∧ d < 0 then
        addToSet ("CredentialGeneration: negative MaxScopeDepth " ++ toString d) errs
      else errs
    | none => errs
  let vault_server_truthy : Bool := match cg.vault_server with
    | some vs => vs != ""
    | none => false
  let errs := if vault_server_truthy = true then
      (if cg.strategy ≠ "Vault" then
        addToSet ("CredentialGeneration: VaultServer specified for a "
                   ++ cg.strategy ++ " strategy") errs
      else errs)
    else
      (if cg.strategy = "Vault" then
        addToSet ("CredentialGeneration: VaultServer not specified for a "
                   ++ cg.strategy ++ " strategy") errs
      else errs)
  let vault_issuer_truthy : Bool := match cg.vault_issuer with
    | some vi => vi != ""
    | none => false
  let errs := if vault_issuer_truthy = true ∧ cg.strategy ≠ "Vault" then
      addToSet ("CredentialGeneration: VaultIssuer specified for a "
                 ++ cg.strategy ++ " strategy") errs
    else errs
  errs

/-- `Namespace` as defined in `webapp/data_federation.py` (carries an optional
`CredentialGeneration`). -/
structure DataFederation.Namespace where
  path : String
  vo_name : String
  allowed_origins : List String
  allowed_caches : List String
  authz_list : List AuthMethod
  writeback : Option String
  dirlist : Option String
  credential_generation : Option CredentialGeneration
deriving DecidableEq

/-- `data_federation.py` line 210: `return any(x for x in self.authz_list if x.is_public)`. -/
def DataFederation.Namespace.is_public (ns : DataFederation.Namespace) : Bool :=
  ns.authz_list.any (fun a => a.is_public)

/-! ## Parsed-YAML values and the authz parsers (both copies) -/

/-- A parsed YAML scalar/collection as the authz parsers see it.  `parse_authz`
accepts a string or a single-key mapping whose value is a string (FQAN, DN) or
a mapping of attributes (SciTokens). -/
inductive YamlValue where
  | str : String → YamlValue
  | bool : Bool → YamlValue
  | dict : List (String × YamlValue) → YamlValue
  | null : YamlValue

/-- Python truthiness of a parsed YAML value. -/
def YamlValue.truthy : YamlValue → Bool
  | .str s => s ≠ ""
  | .bool b => b
  | .dict l => !l.isEmpty
  | .null => false

/-- Shallow rendering of a YAML value, standing in for the Python `repr` that
f-strings embed into parse-error messages (the exact repr text decides no
claim). -/
def YamlValue.render : YamlValue → String
  | .str s => s
  | .bool b => pyBool b
  | .dict _ => "<dict>"
  | .null => "None"

/-- `_parse_authz_str` (identical in `vos_data.py` and `data_federation.py`).
The `generate_dn_hash is None` branch (asn1 unavailable) is not taken in this
embedding, where the hash is always available. -/
def parse_authz_str (authz : String) : AuthMethod × Option String :=
  if strStartsWith authz "FQAN:" then
    let fqan := pyStrip (authz.drop 5)
    if fqan = "" then (.nullAuth, some ("Invalid FQAN auth " ++ authz ++ ": FQAN missing or empty"))
    else (.fqanAuth fqan, none)
  else if strStartsWith authz "DN:" then
    let dn := pyStrip (authz.drop 3)
    if dn = "" then (.nullAuth, some ("Invalid DN auth " ++ authz ++ ": DN missing or empty"))
    else (.dnAuth dn, none)
  else if pyStrip authz = "PUBLIC" then
    (.publicAuth, none)
  else
    (.nullAuth, some ("Unknown authz list entry " ++ authz))

/-- `attributes.get(key)` on the SciTokens attribute mapping. -/
def yget (attrs : List (String × YamlValue)) (k : String) : Option YamlValue :=
  lookupAssoc k attrs

/-- Truthiness of `attributes.get(key)` (missing key is `None`, hence falsy). -/
def ygetTruthy (attrs : List (String × YamlValue)) (k : String) : Bool :=
  match yget attrs k with
  | some v => v.truthy
  | none => false

/-- `_parse_authz_scitokens` of `vos_data.py`: accepts only the historical
spellings with embedded spaces (`"Base Path"`, `"Restricted Path"`,
`"Map Subject"`).  Attribute values are restricted to the types the YAML
schema intends (strings, booleans); a truthy value of the wrong shape is
reported as the corresponding error. -/
def VosData.parse_authz_scitokens (attrs : List (String × YamlValue)) (authz : YamlValue) :
    AuthMethod × Option String :=
  let issuerErr := !ygetTruthy attrs "Issuer"
  let basePathErr := !ygetTruthy attrs "Base Path"
  let restrictedPathErr := ygetTruthy attrs "Restricted Path"
      && (match yget attrs "Restricted Path" with
          | some (.str _) => false
          | _ => true)
  let mapSubjectErr : Bool := match yget attrs "Map Subject" with
    | none => false
    | some (.bool _) => false
    | some _ => true
  let chunks : List String :=
    (if issuerErr then ["'Issuer' missing or empty"] else [])
    ++ (if basePathErr then ["'Base Path' missing or empty"] else [])
    ++ (if restrictedPathErr then ["'Restricted Path' not a string"] else [])
    ++ (if mapSubjectErr then ["'Map Subject' not a boolean"] else [])
  if chunks ≠ [] then
    (.nullAuth, some ("Invalid SciTokens auth " ++ authz.render ++ ": "
                       ++ String.intercalate "; " chunks))
  else
    (.sciTokenAuth
      (match yget attrs "Issuer" with
       | some (.str s) => s
       | _ => "")
      (match yget attrs "Base Path" with
       | some (.str s) => s
       | _ => "")
      (match yget attrs "Restricted Path" with
       | some (.str s) => some s
       | _ => none)
      (match yget attrs "Map Subject" with
       | some (.bool b) => b
       | _ => false), none)

/-- `_parse_authz_scitokens` of `data_federation.py`: accepts the primary
spellings with the spaced spellings as fallback aliases
(`attributes.get("BasePath", attributes.get("Base Path"))` etc.). -/
def DataFederation.parse_authz_scitokens (attrs : List (String × YamlValue)) (authz : YamlValue) :
    AuthMethod × Option String :=
  let getAlias := fun (k1 k2 : String) =>
    match yget attrs k1 with
    | some v => some v
    | none => yget attrs k2
  let truthyAlias := fun (k1 k2 : String) =>
    match getAlias k1 k2 with
    | some v => v.truthy
    | none => false
  let issuerErr := !ygetTruthy attrs "Issuer"
  let basePathErr := !truthyAlias "BasePath" "Base Path"
  let restrictedPathErr := truthyAlias "RestrictedPath" "Restricted Path"
      && (match getAlias "RestrictedPath" "Restricted Path" with
          | some (.str _) => false
          | _ => true)
  let mapSubjectErr : Bool := match getAlias "MapSubject" "Map Subject" with
    | none => false
    | some (.bool _) => false
    | some _ => true
  let chunks : List String :=
    (if issuerErr then ["'Issuer' missing or empty"] else [])
    ++ (if basePathErr then ["'BasePath' missing or empty"] else [])
    ++ (if restrictedPathErr then ["'RestrictedPath' not a string"] else [])
    ++ (if mapSubjectErr then ["'MapSubject' not a boolean"] else [])
  if chunks ≠ [] then
    (.nullAuth, some ("Invalid SciTokens auth " ++ authz.render ++ ": "
                       ++ String.intercalate "; " chunks))
  else
    (.sciTokenAuth
      (match yget attrs "Issuer" with
       | some (.str s) => s
       | _ => "")
      (match getAlias "BasePath" "Base Path" with
       | some (.str s) => s
       | _ => "")
      (match getAlias "RestrictedPath" "Restricted Path" with
       | some (.str s) => some s
       | _ => none)
      (match getAlias "MapSubject" "Map Subject" with
       | some (.bool b) => b
       | _ => false), none)

/-- `_parse_authz_dict` shared skeleton: dispatch on the single key of the
mapping.  For `FQAN`/`DN` the value is used as the identity string; Python
performs no type check there, and this typed embedding restricts truthy values
to strings (a truthy non-string decides no claim).  An empty mapping would
make the Python caller crash when unpacking `None`; it is unreachable for
well-formed YAML and mapped to an error here. -/
def parse_authz_dict
    (scitokens : List (String × YamlValue) → YamlValue → AuthMethod × Option String)
    (entries : List (String × YamlValue)) : AuthMethod × Option String :=
  match entries with
  | [] => (.nullAuth, some "Unknown authz list entry <dict>")
  | (auth_type, attributes) :: _ =>
    if auth_type = "SciTokens" then
      match attributes with
      | .dict attrs =>
          if attrs.isEmpty then
            (.nullAuth, some ("Invalid SciTokens auth <dict>: no attributes"))
          else scitokens attrs (.dict attrs)
      | _ => (.nullAuth, some ("Invalid SciTokens auth <dict>: no attributes"))
    else if auth_type = "FQAN" then
      match attributes with
      | .str s =>
          if s = "" then (.nullAuth, some ("Invalid FQAN auth <dict>: FQAN missing or empty"))
          else (.fqanAuth s, none)
      | v =>
          if v.truthy then (.nullAuth, some "Invalid FQAN auth <dict>: non-string value")
          else (.nullAuth, some ("Invalid FQAN auth <dict>: FQAN missing or empty"))
    else if auth_type = "DN" then
      match attributes with
      | .str s =>
          if s = "" then (.nullAuth, some ("Invalid DN auth <dict>: DN missing or empty"))
          else (.dnAuth s, none)
      | v =>
          if v.truthy then (.nullAuth, some "Invalid DN auth <dict>: non-string value")
          else (.nullAuth, some ("Invalid DN auth <dict>: DN missing or empty"))
    else
      (.nullAuth, some ("Unknown auth type " ++ auth_type ++ " in <dict>"))

/-- `parse_authz` of `vos_data.py` (dispatch on string vs dict). -/
def VosData.parse_authz : YamlValue → AuthMethod × Option String
  | .dict entries => parse_authz_dict VosData.parse_authz_scitokens entries
  | .str s => parse_authz_str s
  | v => (.nullAuth, some ("Unknown authz list entry " ++ v.render))

/-- `parse_authz` of `data_federation.py`. -/
def DataFederation.parse_authz : YamlValue → AuthMethod × Option String
  | .dict entries => parse_authz_dict DataFederation.parse_authz_scitokens entries
  | .str s => parse_authz_str s
  | v => (.nullAuth, some ("Unknown authz list entry " ++ v.render))

/-! ## StashCache loaders -/

/-- `StashCache.parse_authz_list` of `vos_data.py` (lines 554-565): parse each
item, accumulate errors; as soon as a PUBLIC entry is parsed, RETURN the
singleton list `[parsed]`, discarding everything accumulated so far. -/
def VosData.parse_authz_list_go (path : String) (acc : List AuthMethod) (errs : List String) :
    List YamlValue → List AuthMethod × List String
  | [] => (acc, errs)
  | authz :: rest =>
    match VosData.parse_authz authz with
    | (_, some e) =>
        VosData.parse_authz_list_go path acc
          (addToSet ("Namespace " ++ path ++ ": " ++ e) errs) rest
    | (parsed, none) =>
        if parsed.is_public then ([parsed], errs)
        else VosData.parse_authz_list_go path (acc ++ [parsed]) errs rest

/-- `StashCache.parse_authz_list` of `vos_data.py`, threading the owning
registry's error set. -/
def VosData.parse_authz_list (path : String) (items : List YamlValue) (errs : List String) :
    List AuthMethod × List String :=
  VosData.parse_authz_list_go path [] errs items

/-- `StashCache.parse_authz_list` of `data_federation.py` (lines 400-408):
same accumulation, but with NO early return on a PUBLIC entry. -/
def DataFederation.parse_authz_list_go (path : String) (acc : List AuthMethod)
    (errs : List String) : List YamlValue → List AuthMethod × List String
  | [] => (acc, errs)
  | authz :: rest =>
    match DataFederation.parse_authz authz with
    | (_, some e) =>
        DataFederation.parse_authz_list_go path acc
          (addToSet ("Namespace " ++ path ++ ": " ++ e) errs) rest
    | (parsed, none) =>
        DataFederation.parse_authz_list_go path (acc ++ [parsed]) errs rest

/-- `StashCache.parse_authz_list` of `data_federation.py`. -/
def DataFederation.parse_authz_list (path : String) (items : List YamlValue)
    (errs : List String) : List AuthMethod × List String :=
  DataFederation.parse_authz_list_go path [] errs items

/-- One element of the new-format (list-shape) `Namespaces` YAML, with the
typed keys the loaders read (`Path` missing is `path = none`). -/
structure NsYaml where
  path : Option String
  authorizations : List YamlValue
  allowed_origins : List String
  allowed_caches : List String
  writeback : Option String
  dirlist : Option String
  credential_generation : Option CredentialGeneration

/-- Loader state of `vos_data.StashCache`: the insertion-ordered
`path -> Namespace` map and the accumulated error set. -/
structure VosData.LoadState where
  namespaces : List (String × VosData.Namespace)
  errors : List String
deriving DecidableEq

/-- `StashCache.load_new_yaml` of `vos_data.py` (lines 509-532), one indexed
step per list element: missing `Path` and path redefinitions are recorded as
errors and skipped (first declaration wins); otherwise the authz list is
parsed and the namespace inserted. -/
def VosData.load_new_yaml_go (vo_name : String) (idx : Nat) (st : VosData.LoadState) :
    List NsYaml → VosData.LoadState
  | [] => st
  | ns_data :: rest =>
    match ns_data.path with
    | none =>
        VosData.load_new_yaml_go vo_name (idx + 1)
          { st with errors := addToSet ("Namespace #" ++ toString idx ++ ": No Path") st.errors }
          rest
    | some path =>
      match lookupAssoc path st.namespaces with
      | some orig =>
          let msg := "Namespace #" ++ toString idx ++ ": Redefining " ++ path
            ++ "; original was defined in " ++ orig.vo_name
          VosData.load_new_yaml_go vo_name (idx + 1)
            { st with errors := addToSet msg st.errors } rest
      | none =>
        let parsed := VosData.parse_authz_list path ns_data.authorizations st.errors
        VosData.load_new_yaml_go vo_name (idx + 1)
          { namespaces := st.namespaces
              ++ [(path, { path := path, vo_name := vo_name,
                           allowed_origins := ns_data.allowed_origins,
                           allowed_caches := ns_data.allowed_caches,
                           authz_list := parsed.1,
                           writeback := ns_data.writeback,
                           dirlist := ns_data.dirlist })],
            errors := parsed.2 }
          rest

/-- `StashCache.load_new_yaml` of `vos_data.py`. -/
def VosData.load_new_yaml (vo_name : String) (items : List NsYaml) : VosData.LoadState :=
  VosData.load_new_yaml_go vo_name 0 { namespaces := [], errors := [] } items

/-- `StashCache.load_old_yaml` of `vos_data.py` (lines 534-552): map-shape
`Namespaces` with VO-level `AllowedOrigins`/`AllowedCaches`; the authz list is
parsed BEFORE the duplicate check. -/
def VosData.load_old_yaml_go (vo_name : String) (allowed_origins allowed_caches : List String)
    (st : VosData.LoadState) : List (String × List YamlValue) → VosData.LoadState
  | [] => st
  | (path, unparsed) :: rest =>
    let parsed := VosData.parse_authz_list path unparsed st.errors
    match lookupAssoc path st.namespaces with
    | some orig =>
        let msg := "Redefining " ++ path ++ "; original was defined in " ++ orig.vo_name
        VosData.load_old_yaml_go vo_name allowed_origins allowed_caches
          { st with errors := addToSet msg parsed.2 } rest
    | none =>
        VosData.load_old_yaml_go vo_name allowed_origins allowed_caches
          { namespaces := st.namespaces
              ++ [(path, { path := path, vo_name := vo_name,
                           allowed_origins := allowed_origins,
                           allowed_caches := allowed_caches,
                           authz_list := parsed.1,
                           writeback := none,
                           dirlist := none })],
            errors := parsed.2 }
          rest

/-- The `DataFederations/StashCache` section of one VO's YAML document, with
the two accepted shapes of `Namespaces`. -/
inductive NamespacesYaml where
  | listShape : List NsYaml → NamespacesYaml
  | dictShape : List (String × List YamlValue) → NamespacesYaml

/-- The `StashCache`-level YAML mapping (top-level `AllowedOrigins` and
`AllowedCaches` are only read by the old shape). -/
structure StashCacheYaml where
  namespaces : Option NamespacesYaml
  allowed_origins : List String
  allowed_caches : List String

/-- `StashCache.load_yaml` of `vos_data.py`: `is_null(yaml_data, "Namespaces")`
(missing or empty) loads nothing; a list dispatches to the new loader, a dict
to the old one. -/
def VosData.load_yaml (vo_name : String) (yd : StashCacheYaml) : VosData.LoadState :=
  match yd.namespaces with
  | none => { namespaces := [], errors := [] }
  | some (.listShape items) =>
      if items.isEmpty then { namespaces := [], errors := [] }
      else VosData.load_new_yaml vo_name items
  | some (.dictShape items) =>
      if items.isEmpty then { namespaces := [], errors := [] }
      else VosData.load_old_yaml_go vo_name yd.allowed_origins yd.allowed_caches
             { namespaces := [], errors := [] } items

/-- `StashCache` of `vos_data.py`: VO name, ordered namespace map, error set. -/
structure VosData.StashCache where
  vo_name : String
  namespaces : List (String × VosData.Namespace)
  errors : List String
deriving DecidableEq

/-- `StashCache.__init__` of `vos_data.py`: run `load_yaml` on construction. -/
def VosData.StashCache.make (vo_name : String) (yd : StashCacheYaml) : VosData.StashCache :=
  let st := VosData.load_yaml vo_name yd
  { vo_name := vo_name, namespaces := st.namespaces, errors := st.errors }

/-- `VOsData.add_vo` of `vos_data.py` (lines 33-42): when the VO document has
a truthy `DataFederations/StashCache` section, build the `StashCache`; when
the resulting object has any accumulated error, only log -- the VO is NOT
added to `stashcache_by_vo_name`. -/
def VOsData.add_vo (stashcache_by_vo_name : List (String × VosData.StashCache))
    (vo_name : String) (stashcache_data : Option StashCacheYaml) :
    List (String × VosData.StashCache) :=
  match stashcache_data with
  | none => stashcache_by_vo_name
  | some yd =>
    let stashcache_obj := VosData.StashCache.make vo_name yd
    if stashcache_obj.errors ≠ [] then stashcache_by_vo_name
    else upsertAssoc vo_name stashcache_obj stashcache_by_vo_name

/-- Loader state of `data_federation.StashCache`. -/
structure DataFederation.LoadState where
  namespaces : List (String × DataFederation.Namespace)
  errors : List String
deriving DecidableEq

/-- `StashCache.load_new_yaml` of `data_federation.py` (lines 333-376).  The
`CredentialGeneration` validation-failure branch executes
`self.errors += {...}` on a `set`, which raises `TypeError` in Python
(a `set` supports neither `+=` nor `+`); the embedding surfaces that as an
`Except.error`. -/
def DataFederation.load_new_yaml_go (vo_name : String) (idx : Nat)
    (st : DataFederation.LoadState) : List NsYaml → Except String DataFederation.LoadState
  | [] => .ok st
  | ns_data :: rest =>
    match ns_data.path with
    | none =>
        DataFederation.load_new_yaml_go vo_name (idx + 1)
          { st with errors := addToSet ("Namespace #" ++ toString idx ++ ": No Path") st.errors }
          rest
    | some path =>
      match lookupAssoc path st.namespaces with
      | some orig =>
          let msg := "Namespace #" ++ toString idx ++ ": Redefining " ++ path
            ++ "; original was defined in " ++ orig.vo_name
          DataFederation.load_new_yaml_go vo_name (idx + 1)
            { st with errors := addToSet msg st.errors } rest
      | none =>
        let parsed := DataFederation.parse_authz_list path ns_data.authorizations st.errors
        match ns_data.credential_generation with
        | some cg =>
          if cg.validate ≠ [] then
            .error "TypeError: unsupported operand types for +=: set and set"
          else
            DataFederation.load_new_yaml_go vo_name (idx + 1)
              { namespaces := st.namespaces
                  ++ [(path, { path := path, vo_name := vo_name,
                               allowed_origins := ns_data.allowed_origins,
                               allowed_caches := ns_data.allowed_caches,
                               authz_list := parsed.1,
                               writeback := ns_data.writeback,
                               dirlist := ns_data.dirlist,
                               credential_generation := some cg })],
                errors := parsed.2 }
              rest
        | none =>
            DataFederation.load_new_yaml_go vo_name (idx + 1)
              { namespaces := st.namespaces
                  ++ [(path, { path := path, vo_name := vo_name,
                               allowed_origins := ns_data.allowed_origins,
                               allowed_caches := ns_data.allowed_caches,
                               authz_list := parsed.1,
                               writeback := ns_data.writeback,
                               dirlist := ns_data.dirlist,
                               credential_generation := none })],
                errors := parsed.2 }
              rest

/-- `StashCache.load_new_yaml` of `data_federation.py`. -/
def DataFederation.load_new_yaml (vo_name : String) (items : List NsYaml) :
    Except String DataFederation.LoadState :=
  DataFederation.load_new_yaml_go vo_name 0 { namespaces := [], errors := [] } items

/-! ## Node registry model (`webapp/topology.py`, consumed through `stashcache.py`) -/

/-- A registered node ("Resource", external entity).  The fields are exactly
those the embedded code reads: `name`, `fqdn`, `service_names`,
`data.get("AllowedVOs", [])` and `data.get("DN")`. -/
structure Resource where
  name : String
  fqdn : String
  service_names : List String
  allowed_vos : List String
  dn : Option String
deriving DecidableEq

/-- A resource group, as returned by `topology.get_resource_group_list()`. -/
structure ResourceGroup where
  resources : List Resource
deriving DecidableEq

/-- The node registry snapshot. -/
structure Topology where
  resource_groups : List ResourceGroup
deriving DecidableEq

/-- `topology.get_resource_group_list()`. -/
def Topology.get_resource_group_list (t : Topology) : List ResourceGroup :=
  t.resource_groups

/-- Modelled from the spec: `safe_get_resource_by_fqdn` is defined in
`webapp/topology.py`, which is not under `src/`; the spec describes it as "a
node-registry lookup by address returning node-or-absent", and the caller's
docstring adds "If multiple Resources have the same FQDN, checks the first
one".  Modelled as the first matching resource. -/
def Topology.safe_get_resource_by_fqdn (t : Topology) (fqdn : String) : Option Resource :=
  ((t.get_resource_group_list.map ResourceGroup.resources).flatten).find?
    (fun r => r.fqdn == fqdn)

/-! ## Policy evaluator (`stashcache.py`) -/

/-- `_resource_has_cache` (`stashcache.py` line 25). -/
def _resource_has_cache (r : Resource) : Bool :=
  XROOTD_CACHE_SERVER ∈ r.service_names

/-- `resource_allows_namespace` (`stashcache.py` lines 65-84): ANY always
allows; otherwise a non-null namespace is allowed when it is public and
ANY_PUBLIC is listed, or when its VO is listed. -/
def resource_allows_namespace (resource : Resource) (ns : Option VosData.Namespace) : Bool :=
  let allowed_vos := resource.allowed_vos
  if ANY ∈ allowed_vos then true
  else match ns with
    | some n =>
        if ANY_PUBLIC ∈ allowed_vos ∧ n.is_public = true then true
        else if n.vo_name ∈ allowed_vos then true
        else false
    | none => false

/-- `namespace_allows_origin_resource` (`stashcache.py` lines 87-95). -/
def namespace_allows_origin_resource (ns : VosData.Namespace) (origin : Option Resource) : Bool :=
  match origin with
  | some o => decide (o.name ∈ ns.allowed_origins)
  | none => false

/-- `namespace_allows_cache_resource` (`stashcache.py` lines 98-109). -/
def namespace_allows_cache_resource (ns : VosData.Namespace) (cache : Option Resource) : Bool :=
  if ANY ∈ ns.allowed_caches then true
  else match cache with
    | some c => decide (c.name ∈ ns.allowed_caches)
    | none => false

/-- `get_supported_caches_for_namespace` (`stashcache.py` lines 112-124). -/
def get_supported_caches_for_namespace (ns : VosData.Namespace) (topology : Topology) :
    List Resource :=
  let all_caches := ((topology.get_resource_group_list.map ResourceGroup.resources).flatten).filter
    _resource_has_cache
  all_caches.filter (fun cache =>
    namespace_allows_cache_resource ns (some cache)
      && resource_allows_namespace cache (some ns))

/-! ## Resource lookup helpers (`stashcache.py` lines 29-62) -/

/-- `_get_resource_with_service`: `None`/empty fqdn short-circuits to no
resource; an unregistered fqdn or a resource lacking the service raises
(`_log_or_raise`) unless `suppress_errors`, in which case it yields no
resource. -/
def _get_resource_with_service (fqdn : Option String) (service_name : String)
    (topology : Topology) (suppress_errors : Bool) : Except String (Option Resource) :=
  match fqdn with
  | none => .ok none
  | some f =>
    if f = "" then .ok none
    else
      match topology.safe_get_resource_by_fqdn f with
      | none =>
          if suppress_errors then .ok none
          else .error ("ResourceNotRegistered: " ++ f)
      | some resource =>
          if service_name ∈ resource.service_names then .ok (some resource)
          else if suppress_errors then .ok none
          else .error ("ResourceMissingService: " ++ resource.name ++ " " ++ service_name)

/-! ## GlobalData snapshot -/

/-- The slice of `GlobalData` the generators read: `get_topology()`,
`get_vos_data().stashcache_by_vo_name` and `get_ligo_dn_list()` (the latter is
the externally fetched LIGO DN list, injected as data). -/
structure GlobalData where
  topology : Topology
  stashcache_by_vo_name : List (String × VosData.StashCache)
  ligo_dn_list : List String
deriving DecidableEq

/-! ## Cache authfile generator (`stashcache.py` lines 127-187) -/

/-- The per-namespace admission test of `generate_cache_authfile`: the three
`continue` guards of the loop body (namespace allows cache; if a target
resource is given it must allow the namespace; not public). -/
def cache_ns_qualifies (resource : Option Resource) (ns : VosData.Namespace) : Bool :=
  namespace_allows_cache_resource ns resource
    && (match resource with
        | some r => resource_allows_namespace r (some ns)
        | none => true)
    && !ns.is_public

/-- Accumulation state of `generate_cache_authfile`: `id_to_dir`
(`defaultdict(set)` in insertion order), `id_to_str`, and the warning text. -/
structure CacheAuthState where
  id_to_dir : List (String × List String)
  id_to_str : List (String × String)
  warnings : String
deriving DecidableEq

/-- `fetch_ligo_authz_list_if_needed()`: each DN of the external list parsed
through `parse_authz("DN:" + dn)[0]`. -/
def ligo_authz_list (gd : GlobalData) : List AuthMethod :=
  gd.ligo_dn_list.map (fun dn => (VosData.parse_authz (.str ("DN:" ++ dn))).1)

/-- One iteration of the namespace loop of `generate_cache_authfile`.  For the
hard-coded path `/user/ligo` with `legacy` set, `extended_authz_list +=`
extends `namespace.authz_list` IN PLACE (Python list aliasing), so the step
returns the updated namespace alongside the accumulation state. -/
def cache_authfile_ns_step (resource : Option Resource) (legacy : Bool)
    (ligo_authz : List AuthMethod) (dirname : String) (ns : VosData.Namespace)
    (st : CacheAuthState) : CacheAuthState × VosData.Namespace :=
  if ¬ cache_ns_qualifies resource ns then (st, ns)
  else
    let ns := if dirname = "/user/ligo" ∧ legacy then
        { ns with authz_list := ns.authz_list ++ ligo_authz }
      else ns
    let st := if dirname = "/user/ligo" ∧ ¬ legacy then
        { st with warnings := st.warnings ++ "# LIGO DNs unavailable\n" }
      else st
    (ns.authz_list.foldl
      (fun st a =>
        if a.used_in_authfile then
          { st with id_to_dir := addDir a.get_authfile_id dirname st.id_to_dir,
                    id_to_str := upsertAssoc a.get_authfile_id a.describe st.id_to_str }
        else st)
      st, ns)

/-- The namespace loop over one VO's `stashcache_obj.namespaces`, returning
the accumulation state and the (possibly mutated) namespace map. -/
def cache_authfile_ns_list (resource : Option Resource) (legacy : Bool)
    (ligo_authz : List AuthMethod) (st : CacheAuthState) :
    List (String × VosData.Namespace) → CacheAuthState × List (String × VosData.Namespace)
  | [] => (st, [])
  | (dirname, ns) :: rest =>
    let step := cache_authfile_ns_step resource legacy ligo_authz dirname ns st
    let tail := cache_authfile_ns_list resource legacy ligo_authz step.1 rest
    (tail.1, (dirname, step.2) :: tail.2)

/-- The VO loop over `vos_data.stashcache_by_vo_name`, returning the
accumulation state and the (possibly mutated) registry. -/
def cache_authfile_vo_list (resource : Option Resource) (legacy : Bool)
    (ligo_authz : List AuthMethod) (st : CacheAuthState) :
    List (String × VosData.StashCache) → CacheAuthState × List (String × VosData.StashCache)
  | [] => (st, [])
  | (vo_name, sc) :: rest =>
    let inner := cache_authfile_ns_list resource legacy ligo_authz st sc.namespaces
    let tail := cache_authfile_vo_list resource legacy ligo_authz inner.1 rest
    (tail.1, (vo_name, { sc with namespaces := inner.2 }) :: tail.2)

/-- The output loop of `generate_cache_authfile`: per authfile id (insertion
order), a comment line with the description and the id line with the
lexicographically sorted paths, each suffixed `rl`. -/
def cache_authfile_render (st : CacheAuthState) : String :=
  st.id_to_dir.foldl
    (fun acc p =>
      acc ++ "# " ++ (lookupAssoc p.1 st.id_to_str).getD "" ++ "\n"
        ++ p.1 ++ " "
        ++ String.intercalate " " ((sortStrings p.2).map (fun q => q ++ " rl")) ++ "\n")
    ""

/-- The body of `generate_cache_authfile` once the target resource (if any)
has been resolved. -/
def cache_authfile_run (gd : GlobalData) (resource : Option Resource) (legacy : Bool) :
    Except String String × List (String × VosData.StashCache) :=
  let folded := cache_authfile_vo_list resource legacy (ligo_authz_list gd)
    { id_to_dir := [], id_to_str := [], warnings := "" } gd.stashcache_by_vo_name
  if folded.1.id_to_dir = [] then
    (.error "Cache does not support any protected namespaces", folded.2)
  else
    (.ok (folded.1.warnings ++ cache_authfile_render folded.1), folded.2)

/-- `generate_cache_authfile` (`stashcache.py` lines 127-187).  Returns the
generated text (or the raised error) TOGETHER with the registry as it stands
after the call, reflecting the in-place `+=` on `namespace.authz_list`. -/
def generate_cache_authfile (gd : GlobalData) (fqdn : Option String)
    (legacy suppress_errors : Bool) :
    Except String String × List (String × VosData.StashCache) :=
  match fqdn with
  | none => cache_authfile_run gd none legacy
  | some f =>
    if f = "" then cache_authfile_run gd none legacy
    else
      match _get_resource_with_service (some f) XROOTD_CACHE_SERVER gd.topology suppress_errors with
      | .error e => (.error e, gd.stashcache_by_vo_name)
      | .ok none => (.ok "", gd.stashcache_by_vo_name)
      | .ok (some r) => cache_authfile_run gd (some r) legacy

/-! ## Public-cache authfile generator (`stashcache.py` lines 190-226) -/

/-- The collection loop of `generate_public_cache_authfile`: the set of
dirnames of PUBLIC namespaces admitted by the gate against the target. -/
def public_cache_dirs (registry : List (String × VosData.StashCache))
    (resource : Option Resource) : List String :=
  registry.foldl
    (fun acc vo =>
      vo.2.namespaces.foldl
        (fun acc p =>
          if ¬ namespace_allows_cache_resource p.2 resource then acc
          else if (match resource with
                   | some r => !resource_allows_namespace r (some p.2)
                   | none => false) then acc
          else if p.2.is_public then addToSet p.1 acc
          else acc)
        acc)
    []

/-- The body of `generate_public_cache_authfile` once the target resource (if
any) has been resolved. -/
def public_cache_authfile_run (gd : GlobalData) (resource : Option Resource) :
    Except String String :=
  let public_dirs := public_cache_dirs gd.stashcache_by_vo_name resource
  if public_dirs = [] then .error "Cache does not support any public namespaces"
  else
    let authfile := "u * /user/ligo -rl \\\n"
      ++ String.join ((sortStrings public_dirs).map (fun d => "    " ++ d ++ " rl \\\n"))
    .ok (if strEndsWith authfile " \\\n" then (authfile.dropRight 3) ++ "\n" else authfile)

/-- `generate_public_cache_authfile` (`stashcache.py` lines 190-226); the
`legacy` flag is accepted and ignored (`_ = legacy`). -/
def generate_public_cache_authfile (gd : GlobalData) (fqdn : Option String)
    (legacy suppress_errors : Bool) : Except String String :=
  let _ := legacy
  match fqdn with
  | none => public_cache_authfile_run gd none
  | some f =>
    if f = "" then public_cache_authfile_run gd none
    else
      match _get_resource_with_service (some f) XROOTD_CACHE_SERVER gd.topology suppress_errors with
      | .error e => .error e
      | .ok none => .ok ""
      | .ok (some r) => public_cache_authfile_run gd (some r)

/-! ## SciTokens config generators (`stashcache.py` lines 229-282 and 367-420) -/

/-- The dummy issuer block appended when no `SciTokens` authz qualified
("Older plugin versions require at least one issuer block", SOFTWARE-4389). -/
def dummy_scitoken_auth : AuthMethod :=
  .sciTokenAuth "https://scitokens.org/nonexistent" "/no-issuers-found" none false

/-- `set(a.get_scitokens_conf_block(service) for a in list)` renders every
block, propagating the `ValueError` an invalid service name would raise. -/
def render_blocks (service_name : String) : List AuthMethod → Except String (List String)
  | [] => .ok []
  | a :: rest =>
    match a.get_scitokens_conf_block service_name with
    | .error e => .error e
    | .ok b =>
      match render_blocks service_name rest with
      | .error e => .error e
      | .ok bs => .ok (b :: bs)

/-- The collection loop of `generate_cache_scitokens`: entries flagged
`used_in_scitokens_conf` of every non-public namespace passing the
bidirectional gate, together with the set of contributing VO names. -/
def scitokens_collect_cache (registry : List (String × VosData.StashCache))
    (cache_resource : Resource) : List AuthMethod × List String :=
  registry.foldl
    (fun acc vo =>
      vo.2.namespaces.foldl
        (fun acc p =>
          if p.2.is_public then acc
          else if ¬ namespace_allows_cache_resource p.2 (some cache_resource) then acc
          else if ¬ resource_allows_namespace cache_resource (some p.2) then acc
          else p.2.authz_list.foldl
            (fun acc a =>
              if a.used_in_scitokens_conf then (acc.1 ++ [a], addToSet vo.1 acc.2)
              else acc)
            acc)
        acc)
    ([], [])

/-- The collection loop of `generate_origin_scitokens` (the gate uses
`namespace_allows_origin_resource`). -/
def scitokens_collect_origin (registry : List (String × VosData.StashCache))
    (origin_resource : Resource) : List AuthMethod × List String :=
  registry.foldl
    (fun acc vo =>
      vo.2.namespaces.foldl
        (fun acc p =>
          if p.2.is_public then acc
          else if ¬ namespace_allows_origin_resource p.2 (some origin_resource) then acc
          else if ¬ resource_allows_namespace origin_resource (some p.2) then acc
          else p.2.authz_list.foldl
            (fun acc a =>
              if a.used_in_scitokens_conf then (acc.1 ++ [a], addToSet vo.1 acc.2)
              else acc)
            acc)
        acc)
    ([], [])

/-- The `[Global] / audience / issuer blocks` template body shared by both
scitokens generators: sorted deduplicated blocks, sorted comma-joined VO
names, then `template.format(...).rstrip() + "\n"`. -/
def scitokens_template (allowed_vos : List String) (blocks : List String) : String :=
  rstrip ("[Global]\naudience = " ++ String.intercalate ", " (sortStrings allowed_vos)
    ++ "\n\n" ++ String.intercalate "\n" (sortStrings (setOfList blocks)) ++ "\n") ++ "\n"

/-- The body of `generate_cache_scitokens` once the cache resource has been
resolved. -/
def cache_scitokens_for_resource (gd : GlobalData) (cache_resource : Resource) :
    Except String String :=
  let collected := scitokens_collect_cache gd.stashcache_by_vo_name cache_resource
  let cache_authz_list := if collected.1 = [] then [dummy_scitoken_auth] else collected.1
  match render_blocks XROOTD_CACHE_SERVER cache_authz_list with
  | .error e => .error e
  | .ok blocks => .ok (scitokens_template collected.2 blocks)

/-- `generate_cache_scitokens` (`stashcache.py` lines 229-282). -/
def generate_cache_scitokens (gd : GlobalData) (fqdn : Option String)
    (suppress_errors : Bool) : Except String String :=
  match _get_resource_with_service fqdn XROOTD_CACHE_SERVER gd.topology suppress_errors with
  | .error e => .error e
  | .ok none => .ok ""
  | .ok (some cache_resource) => cache_scitokens_for_resource gd cache_resource

/-- The body of `generate_origin_scitokens` once the origin resource has been
resolved. -/
def origin_scitokens_for_resource (gd : GlobalData) (origin_resource : Resource) :
    Except String String :=
  let collected := scitokens_collect_origin gd.stashcache_by_vo_name origin_resource
  let origin_authz_list := if collected.1 = [] then [dummy_scitoken_auth] else collected.1
  match render_blocks XROOTD_ORIGIN_SERVER origin_authz_list with
  | .error e => .error e
  | .ok blocks => .ok (scitokens_template collected.2 blocks)

/-- `generate_origin_scitokens` (`stashcache.py` lines 367-420). -/
def generate_origin_scitokens (gd : GlobalData) (fqdn : Option String)
    (suppress_errors : Bool) : Except String String :=
  match _get_resource_with_service fqdn XROOTD_ORIGIN_SERVER gd.topology suppress_errors with
  | .error e => .error e
  | .ok none => .ok ""
  | .ok (some origin_resource) => origin_scitokens_for_resource gd origin_resource

/-! ## Origin authfile generator (`stashcache.py` lines 285-364) -/

/-- Accumulation state of `generate_origin_authfile`. -/
structure OriginState where
  public_paths : List String
  id_to_paths : List (String × List String)
  id_to_str : List (String × String)
  warnings : List String
deriving DecidableEq

/-- One iteration of the namespace loop of `generate_origin_authfile`.  The
namespace's own FQANs and DNs are ignored; the authorized principals are the
origin itself plus every supported cache, each contributing a `DNAuth` built
from its `DN` attribute (a missing or empty DN yields a warning instead). -/
def origin_ns_step (topology : Topology) (origin_resource : Resource)
    (public_origin : Bool) (vo_name path : String) (ns : VosData.Namespace)
    (st : OriginState) : OriginState :=
  if ¬ namespace_allows_origin_resource ns (some origin_resource) then st
  else if ¬ resource_allows_namespace origin_resource (some ns) then st
  else if ns.is_public then { st with public_paths := addToSet path st.public_paths }
  else if public_origin then st
  else
    let allowed_caches := get_supported_caches_for_namespace ns topology
    let st := if allowed_caches = [] then
        { st with warnings := st.warnings
            ++ ["# WARNING: No working cache / namespace combinations found for " ++ path] }
      else st
    let allowed_resources := origin_resource :: allowed_caches
    let folded := allowed_resources.foldl
      (fun (p : List AuthMethod × OriginState) r =>
        match r.dn with
        | some dn =>
            if dn ≠ "" then (p.1 ++ [.dnAuth dn], p.2)
            else (p.1, { p.2 with warnings := p.2.warnings
                ++ ["# WARNING: Resource " ++ r.name ++ " was skipped for VO " ++ vo_name
                     ++ ", namespace " ++ path
                     ++ " because the resource does not provide a DN."] })
        | none =>
            (p.1, { p.2 with warnings := p.2.warnings
                ++ ["# WARNING: Resource " ++ r.name ++ " was skipped for VO " ++ vo_name
                     ++ ", namespace " ++ path
                     ++ " because the resource does not provide a DN."] }))
      ([], st)
    folded.1.foldl
      (fun st a =>
        if a.used_in_authfile then
          { st with id_to_paths := addDir a.get_authfile_id path st.id_to_paths,
                    id_to_str := upsertAssoc a.get_authfile_id a.describe st.id_to_str }
        else st)
      folded.2

/-- The VO/namespace double loop of `generate_origin_authfile` (the Python
loop body is unreachable when `origin_resource` is `None`, since
`namespace_allows_origin_resource` is then false for every namespace). -/
def origin_authfile_parts (gd : GlobalData) (origin_resource : Resource)
    (public_origin : Bool) : OriginState :=
  gd.stashcache_by_vo_name.foldl
    (fun st vo =>
      vo.2.namespaces.foldl
        (fun st p => origin_ns_step gd.topology origin_resource public_origin vo.1 p.1 p.2 st)
        st)
    { public_paths := [], id_to_paths := [], id_to_str := [], warnings := [] }

/-- The per-identity output pairs of `generate_origin_authfile`: one comment
line and one identity line (paths sorted, each suffixed `lr`), in id insertion
order. -/
def origin_id_lines (st : OriginState) : List String :=
  st.id_to_paths.foldl
    (fun acc p =>
      acc ++ ["# " ++ (lookupAssoc p.1 st.id_to_str).getD "",
              p.1 ++ " "
                ++ String.intercalate " " ((sortStrings p.2).map (fun q => q ++ " lr"))])
    []

/-- The trailing `u *` public block: sorted public paths, each suffixed `lr`. -/
def origin_public_line (st : OriginState) : String :=
  "u * " ++ String.intercalate " " ((sortStrings st.public_paths).map (fun q => q ++ " lr"))

/-- The body of `generate_origin_authfile` for a resolved (or absent) origin
resource: hard `DataError` when both maps are empty, otherwise warnings, then
identity pairs, then -- in `public_origin` mode with a non-empty public set --
a blank separator line and the single `u *` line, joined with newlines. -/
def origin_authfile_run (gd : GlobalData) (origin_resource : Option Resource)
    (public_origin : Bool) : Except String String :=
  let st := match origin_resource with
    | some orr => origin_authfile_parts gd orr public_origin
    | none => { public_paths := [], id_to_paths := [], id_to_str := [], warnings := [] }
  if st.id_to_paths = [] ∧ st.public_paths = [] then
    .error "Origin does not support any namespaces"
  else
    let authfile_lines := st.warnings ++ origin_id_lines st
    let authfile_lines := if public_origin ∧ st.public_paths ≠ [] then
        authfile_lines ++ ["", origin_public_line st]
      else authfile_lines
    .ok (String.intercalate "\n" authfile_lines ++ "\n")

/-- `generate_origin_authfile` (`stashcache.py` lines 285-364). -/
def generate_origin_authfile (gd : GlobalData) (fqdn : Option String)
    (suppress_errors public_origin : Bool) : Except String String :=
  match fqdn with
  | none => origin_authfile_run gd none public_origin
  | some f =>
    if f = "" then origin_authfile_run gd none public_origin
    else
      match _get_resource_with_service (some f) XROOTD_ORIGIN_SERVER gd.topology suppress_errors with
      | .error e => .error e
      | .ok none => .ok ""
      | .ok (some r) => origin_authfile_run gd (some r) public_origin

/-! ## Concrete snapshots used by the counterexamples and witnesses -/

/-- An empty snapshot: no registered nodes, no VOs. -/
def gdEmpty : GlobalData :=
  { topology := { resource_groups := [] }, stashcache_by_vo_name := [], ligo_dn_list := [] }

/-- A non-public namespace whose `allowed_caches` names a cache but does not
contain `ANY`. -/
def nsNoAny : VosData.Namespace :=
  { path := "/data", vo_name := "vo1", allowed_origins := [], allowed_caches := ["c1"],
    authz_list := [.fqanAuth "/x"], writeback := none, dirlist := none }

/-- A snapshot with the single namespace `nsNoAny`. -/
def gdNoAny : GlobalData :=
  { topology := { resource_groups := [] },
    stashcache_by_vo_name := [("vo1", { vo_name := "vo1",
                                        namespaces := [("/data", nsNoAny)], errors := [] })],
    ligo_dn_list := [] }

/-- The hard-coded `/user/ligo` namespace, non-public, open to any cache. -/
def nsLigo : VosData.Namespace :=
  { path := "/user/ligo", vo_name := "ligo", allowed_origins := [], allowed_caches := [ANY],
    authz_list := [.fqanAuth "/ligo"], writeback := none, dirlist := none }

/-- A snapshot containing `/user/ligo` and one externally supplied LIGO DN. -/
def gdLigo : GlobalData :=
  { topology := { resource_groups := [] },
    stashcache_by_vo_name := [("ligo", { vo_name := "ligo",
                                         namespaces := [("/user/ligo", nsLigo)],
                                         errors := [] })],
    ligo_dn_list := ["ligodn"] }

/-- A node running both the cache and the origin service, admitting every VO. -/
def resCacheOrigin : Resource :=
  { name := "c1", fqdn := "c.example",
    service_names := [XROOTD_CACHE_SERVER, XROOTD_ORIGIN_SERVER],
    allowed_vos := [ANY], dn := some "cdn" }

/-- A snapshot with one registered cache+origin node and no VOs. -/
def gdOneNode : GlobalData :=
  { topology := { resource_groups := [{ resources := [resCacheOrigin] }] },
    stashcache_by_vo_name := [], ligo_dn_list := [] }

/-- An origin-only node admitting every VO. -/
def resOrigin : Resource :=
  { name := "o1", fqdn := "o.example", service_names := [XROOTD_ORIGIN_SERVER],
    allowed_vos := [ANY], dn := some "odn" }

/-- A public namespace served by the origin `o1`. -/
def nsPub : VosData.Namespace :=
  { path := "/pub", vo_name := "vo1", allowed_origins := ["o1"], allowed_caches := [],
    authz_list := [.publicAuth], writeback := none, dirlist := none }

/-- A snapshot with the origin `o1` and the public namespace `/pub`. -/
def gdPubOrigin : GlobalData :=
  { topology := { resource_groups := [{ resources := [resOrigin] }] },
    stashcache_by_vo_name := [("vo1", { vo_name := "vo1",
                                        namespaces := [("/pub", nsPub)], errors := [] })],
    ligo_dn_list := [] }

/-- A `CredentialGeneration` block with `Strategy: Vault` but no
`VaultServer` (the spec's own 8th testable property). -/
def cgVaultNoServer : CredentialGeneration :=
  { strategy := "Vault", issuer := "https://x/", max_scope_depth := none,
    vault_server := none, base_path := none, vault_issuer := none }

/-- A list-shape namespace entry carrying `cgVaultNoServer`. -/
def nsYamlBadCG : NsYaml :=
  { path := some "/a", authorizations := [], allowed_origins := [], allowed_caches := [],
    writeback := none, dirlist := none, credential_generation := some cgVaultNoServer }

/-- A list-shape namespace entry with a malformed `SciTokens` authz item
(missing `Issuer`). -/
def nsYamlBadAuthz : NsYaml :=
  { path := some "/a",
    authorizations := [.dict [("SciTokens", .dict [("Base Path", .str "/p")])]],
    allowed_origins := [], allowed_caches := [],
    writeback := none, dirlist := none, credential_generation := none }

/-- A well-formed list-shape namespace entry (`PUBLIC`). -/
def nsYamlGood : NsYaml :=
  { path := some "/b", authorizations := [.str "PUBLIC"], allowed_origins := [],
    allowed_caches := [], writeback := none, dirlist := none, credential_generation := none }

/-- A `StashCache` YAML section containing one malformed and one well-formed
namespace. -/
def scYamlMixed : StashCacheYaml :=
  { namespaces := some (.listShape [nsYamlBadAuthz, nsYamlGood]),
    allowed_origins := [], allowed_caches := [] }

/-- First declaration of `/p` in a duplicate-path load. -/
def nsYamlDup1 : NsYaml :=
  { path := some "/p", authorizations := [.str "PUBLIC"], allowed_origins := ["o1"],
    allowed_caches := ["c1"], writeback := none, dirlist := none,
    credential_generation := none }

/-- Second declaration of `/p` in a duplicate-path load. -/
def nsYamlDup2 : NsYaml :=
  { path := some "/p", authorizations := [], allowed_origins := [], allowed_caches := [],
    writeback := none, dirlist := none, credential_generation := none }

/-! ## Helper lemmas -/

theorem mem_addToSet_self (s : String) (l : List String) : s ∈ addToSet s l := by
  unfold addToSet
  split
  case isTrue h => exact h
  case isFalse h => exact List.mem_append_right l (List.mem_singleton.mpr rfl)

/-- Every result of `vos_data.StashCache.parse_authz_list` either contains no
public entry at all, or is exactly the singleton `[PublicAuth]` (the early
`return [parsed_authz]` discards everything else). -/
theorem VosData.parse_authz_list_go_public (path : String) (items : List YamlValue)
    (acc : List AuthMethod) (errs : List String)
    (hacc : ∀ a ∈ acc, a.is_public = false) :
    (∀ a ∈ (VosData.parse_authz_list_go path acc errs items).1, a.is_public = false)
    ∨ (VosData.parse_authz_list_go path acc errs items).1 = [AuthMethod.publicAuth] := by
  induction items generalizing acc errs with
  | nil => exact Or.inl hacc
  | cons authz rest ih =>
    rw [VosData.parse_authz_list_go]
    rcases hp : VosData.parse_authz authz with ⟨parsed, err⟩
    cases err with
    | some e => dsimp only; exact ih acc _ hacc
    | none =>
      dsimp only
      by_cases hpub : parsed.is_public = true
      · rw [if_pos hpub]
        right
        cases parsed <;> simp_all [AuthMethod.is_public]
      · rw [if_neg hpub]
        refine ih (acc ++ [parsed]) errs ?_
        intro a ha
        rcases List.mem_append.mp ha with h | h
        · exact hacc a h
        · rw [List.mem_singleton.mp h]
          simpa using hpub

/-! ## Claim theorems -/

/-- C1: the claim says `is_public()` is true iff ANY entry of `authz_list` is
the Public variant, "a namespace whose Public entry is not in first position
is still public".  Counterexample: the `vos_data.py` `Namespace.is_public`
(the copy the generators use) checks only the FIRST entry, so a namespace
whose second entry is Public is NOT public there. -/
theorem c1_counterexample :
    VosData.Namespace.is_public
        { path := "/p", vo_name := "vo", allowed_origins := [], allowed_caches := [],
          authz_list := [.fqanAuth "/x", .publicAuth], writeback := none, dirlist := none }
      = false
    ∧ AuthMethod.publicAuth
        ∈ [AuthMethod.fqanAuth "/x", AuthMethod.publicAuth]
    ∧ AuthMethod.is_public .publicAuth = true := by
  exact ⟨rfl, by decide, rfl⟩

/-- C1 (amended): `data_federation.Namespace.is_public` is true iff some
entry is Public (so an empty list is not public and a non-first Public entry
still counts); `vos_data.Namespace.is_public` looks only at the first entry;
the two semantics nevertheless agree on every authz list produced by
`vos_data.StashCache.parse_authz_list`, which never emits a Public entry
except as the sole element. -/
theorem c1_amended_is_public :
    (∀ ns : DataFederation.Namespace,
       ns.is_public = true ↔ ∃ a ∈ ns.authz_list, a.is_public = true)
    ∧ (∀ ns : VosData.Namespace,
       ns.is_public = true ↔ ∃ a, ns.authz_list.head? = some a ∧ a.is_public = true)
    ∧ (∀ (vo path : String) (items : List YamlValue) (errs ao ac : List String)
         (wb dl : Option String),
       VosData.Namespace.is_public
           { path := path, vo_name := vo, allowed_origins := ao, allowed_caches := ac,
             authz_list := (VosData.parse_authz_list path items errs).1,
             writeback := wb, dirlist := dl }
         = (VosData.parse_authz_list path items errs).1.any AuthMethod.is_public) := by
  refine ⟨?_, ?_, ?_⟩
  · intro ns
    simp [DataFederation.Namespace.is_public, List.any_eq_true]
  · intro ns
    unfold VosData.Namespace.is_public
    cases ns.authz_list with
    | nil => simp
    | cons a rest => simp
  · intro vo path items errs ao ac wb dl
    unfold VosData.parse_authz_list
    rcases VosData.parse_authz_list_go_public path items [] errs (by intro a ha; cases ha)
      with h | h
    · unfold VosData.Namespace.is_public
      rcases hl : (VosData.parse_authz_list_go path [] errs items).1 with _ | ⟨a, rest⟩
      · simp
      · rw [hl] at h
        have := h a (List.mem_cons_self a rest)
        simp only [this]
        symm
        rw [List.any_eq_false]
        intro b hb
        simp [h b hb]
    · rw [h]
      rfl

/-- C2: membership in `get_supported_caches_for_namespace(ns, R)` is exactly
"cache-capable node of the registry AND `namespace_allows_cache_resource`
AND `resource_allows_namespace`". -/
theorem c2_supported_caches_iff (ns : VosData.Namespace) (t : Topology) (r : Resource) :
    r ∈ get_supported_caches_for_namespace ns t ↔
      ((∃ g ∈ t.resource_groups, r ∈ g.resources)
        ∧ _resource_has_cache r = true
        ∧ namespace_allows_cache_resource ns (some r) = true
        ∧ resource_allows_namespace r (some ns) = true) := by
  unfold get_supported_caches_for_namespace Topology.get_resource_group_list
  simp only [List.mem_filter, List.mem_flatten, List.mem_map, Bool.and_eq_true]
  constructor
  · rintro ⟨⟨⟨l, ⟨g, hg, hl⟩, hrl⟩, hc⟩, h1, h2⟩
    exact ⟨⟨g, hg, hl ▸ hrl⟩, hc, h1, h2⟩
  · rintro ⟨⟨g, hg, hr⟩, hc, h1, h2⟩
    exact ⟨⟨⟨g.resources, ⟨g, hg, rfl⟩, hr⟩, hc⟩, h1, h2⟩

/-- C3: the claim says the empty-artifact condition raises only when the
suppress flag is false and degrades to empty/warning text when it is true.
Counterexample: with `suppress_errors = True` and no qualifying namespace,
both cache-authfile generators still raise `DataError` (`stashcache.py` lines
179-180 and 216-217 are not guarded by the flag). -/
theorem c3_counterexample :
    (generate_cache_authfile gdEmpty none true true).1
        = .error "Cache does not support any protected namespaces"
    ∧ generate_public_cache_authfile gdEmpty none true true
        = .error "Cache does not support any public namespaces" :=
  ⟨rfl, rfl⟩

/-- C3 (amended): with no target fqdn the suppress flag has no effect at all
on either cache-authfile generator, and whenever the collected identity set
(resp. public-path set) is empty the generator raises the `DataError`
REGARDLESS of the suppress flag; the flag only governs resource lookup. -/
theorem c3_amended_empty_raises :
    (∀ gd legacy,
       generate_cache_authfile gd none legacy true
           = generate_cache_authfile gd none legacy false
         ∧ generate_public_cache_authfile gd none legacy true
           = generate_public_cache_authfile gd none legacy false)
    ∧ (∀ gd legacy suppress,
        (cache_authfile_vo_list none legacy (ligo_authz_list gd)
            { id_to_dir := [], id_to_str := [], warnings := "" }
            gd.stashcache_by_vo_name).1.id_to_dir = [] →
        (generate_cache_authfile gd none legacy suppress).1
          = .error "Cache does not support any protected namespaces")
    ∧ (∀ gd legacy suppress,
        public_cache_dirs gd.stashcache_by_vo_name none = [] →
        generate_public_cache_authfile gd none legacy suppress
          = .error "Cache does not support any public namespaces") := by
  refine ⟨fun gd legacy => ⟨rfl, rfl⟩, ?_, ?_⟩
  · intro gd legacy suppress h
    show (cache_authfile_run gd none legacy).1 = _
    simp only [cache_authfile_run, h]
    simp
  · intro gd legacy suppress h
    show public_cache_authfile_run gd none = _
    simp only [public_cache_authfile_run, h]
    simp

/-- C3 witness: the amended theorem applied at the empty snapshot, for the
unsuppressed flag value. -/
theorem c3_amended_witness :
    (cache_authfile_vo_list none true (ligo_authz_list gdEmpty)
        { id_to_dir := [], id_to_str := [], warnings := "" }
        gdEmpty.stashcache_by_vo_name).1.id_to_dir = []
    ∧ (generate_cache_authfile gdEmpty none true false).1
        = .error "Cache does not support any protected namespaces"
    ∧ public_cache_dirs gdEmpty.stashcache_by_vo_name none = []
    ∧ generate_public_cache_authfile gdEmpty none true false
        = .error "Cache does not support any public namespaces" :=
  ⟨rfl, c3_amended_empty_raises.2.1 gdEmpty true false rfl, rfl,
   c3_amended_empty_raises.2.2 gdEmpty true false rfl⟩

/-- C4: the claim says that with no target fqdn every non-public namespace
contributes its `used_in_authfile` entries "unconditionally, regardless of the
contents of the namespace's allowed_caches list".  Counterexample: `nsNoAny`
is non-public and carries a `used_in_authfile` FQAN entry, yet with no target
the generator collects nothing from it (its `allowed_caches` lacks `ANY`),
ending in the empty-identity `DataError` instead of an authfile containing
the entry. -/
theorem c4_counterexample :
    nsNoAny.is_public = false
    ∧ (AuthMethod.fqanAuth "/x").used_in_authfile = true
    ∧ AuthMethod.fqanAuth "/x" ∈ nsNoAny.authz_list
    ∧ (generate_cache_authfile gdNoAny none true true).1
        = .error "Cache does not support any protected namespaces" :=
  ⟨rfl, rfl, by decide, rfl⟩

/-- C4 (amended): when no target node is given, `generate_cache_authfile`
admits a namespace exactly when `ANY` is in its `allowed_caches` (and it is
not public); a non-public namespace whose `allowed_caches` lacks `ANY` is
skipped. -/
theorem c4_amended_no_target_gate :
    (∀ ns : VosData.Namespace,
       namespace_allows_cache_resource ns none = decide (ANY ∈ ns.allowed_caches))
    ∧ (∀ ns : VosData.Namespace,
       cache_ns_qualifies none ns
         = (decide (ANY ∈ ns.allowed_caches) && !ns.is_public)) := by
  have hgate : ∀ ns : VosData.Namespace,
      namespace_allows_cache_resource ns none = decide (ANY ∈ ns.allowed_caches) := by
    intro ns
    unfold namespace_allows_cache_resource
    by_cases h : ANY ∈ ns.allowed_caches
    · simp [h]
    · simp [h]
  refine ⟨hgate, ?_⟩
  intro ns
  unfold cache_ns_qualifies
  rw [hgate ns]
  simp

/-- C5: the claim says no generator mutates the registry snapshot.  The code
violates its own purity intent: in `generate_cache_authfile`,
`extended_authz_list = namespace.authz_list` aliases the stored list and
`extended_authz_list += fetch_ligo_authz_list_if_needed()` extends it IN
PLACE, so the `/user/ligo` namespace's `authz_list` grows by the parsed LIGO
DN entries.  Evaluation at the failing input: after one call with
`legacy=True`, the registry differs from the snapshot passed in. -/
theorem c5_cache_authfile_mutates_registry :
    (generate_cache_authfile gdLigo none true true).2
      = [("ligo", { vo_name := "ligo",
                    namespaces := [("/user/ligo",
                      { path := "/user/ligo", vo_name := "ligo", allowed_origins := [],
                        allowed_caches := [ANY],
                        authz_list := [.fqanAuth "/ligo", .dnAuth "ligodn"],
                        writeback := none, dirlist := none })],
                    errors := [] })]
    ∧ (generate_cache_authfile gdLigo none true true).2 ≠ gdLigo.stashcache_by_vo_name
    ∧ (generate_cache_authfile gdLigo none true true).1
      = .ok "# FQAN: /ligo\ng /ligo /user/ligo rl\n# DN: ligodn\nu <hash:ligodn> /user/ligo rl\n" :=
  ⟨rfl, by decide, rfl⟩

theorem render_blocks_valid (service : String)
    (hs : service = XROOTD_CACHE_SERVER ∨ service = XROOTD_ORIGIN_SERVER)
    (l : List AuthMethod) : ∃ bs, render_blocks service l = .ok bs := by
  induction l with
  | nil => exact ⟨[], rfl⟩
  | cons a rest ih =>
    rcases ih with ⟨bs, hbs⟩
    have ha : ∃ b, AuthMethod.get_scitokens_conf_block a service = .ok b := by
      cases a with
      | sciTokenAuth i b r m =>
          unfold AuthMethod.get_scitokens_conf_block
          dsimp only
          rw [if_neg]
          · exact ⟨_, rfl⟩
          · rintro ⟨hc, ho⟩
            rcases hs with h | h
            · exact hc h
            · exact ho h
      | nullAuth => exact ⟨"", rfl⟩
      | publicAuth => exact ⟨"", rfl⟩
      | dnAuth d => exact ⟨"", rfl⟩
      | fqanAuth f => exact ⟨"", rfl⟩
    rcases ha with ⟨b, hb⟩
    exact ⟨b :: bs, by simp only [render_blocks, hb, hbs]⟩

theorem cache_scitokens_for_resource_ok (gd : GlobalData) (r : Resource) :
    ∃ out, cache_scitokens_for_resource gd r = .ok out := by
  simp only [cache_scitokens_for_resource]
  rcases render_blocks_valid XROOTD_CACHE_SERVER (Or.inl rfl)
      (if (scitokens_collect_cache gd.stashcache_by_vo_name r).1 = []
       then [dummy_scitoken_auth]
       else (scitokens_collect_cache gd.stashcache_by_vo_name r).1) with ⟨bs, hbs⟩
  rw [hbs]
  exact ⟨_, rfl⟩

theorem origin_scitokens_for_resource_ok (gd : GlobalData) (r : Resource) :
    ∃ out, origin_scitokens_for_resource gd r = .ok out := by
  simp only [origin_scitokens_for_resource]
  rcases render_blocks_valid XROOTD_ORIGIN_SERVER (Or.inr rfl)
      (if (scitokens_collect_origin gd.stashcache_by_vo_name r).1 = []
       then [dummy_scitoken_auth]
       else (scitokens_collect_origin gd.stashcache_by_vo_name r).1) with ⟨bs, hbs⟩
  rw [hbs]
  exact ⟨_, rfl⟩

theorem get_resource_with_service_error_inv (fqdn : Option String) (svc : String)
    (t : Topology) (s : Bool) (e : String)
    (h : _get_resource_with_service fqdn svc t s = .error e) :
    ∃ f, fqdn = some f ∧ f ≠ "" ∧ s = false
      ∧ (t.safe_get_resource_by_fqdn f = none
         ∨ ∃ r, t.safe_get_resource_by_fqdn f = some r ∧ svc ∉ r.service_names) := by
  cases fqdn with
  | none => exact absurd h (by simp [_get_resource_with_service])
  | some f =>
    unfold _get_resource_with_service at h
    dsimp only at h
    by_cases hf : f = ""
    · rw [if_pos hf] at h
      exact absurd h (by simp)
    · rw [if_neg hf] at h
      refine ⟨f, rfl, hf, ?_⟩
      cases hr : t.safe_get_resource_by_fqdn f with
      | none =>
        rw [hr] at h
        dsimp only at h
        cases s with
        | true => simp at h
        | false => exact ⟨rfl, Or.inl rfl⟩
      | some r =>
        rw [hr] at h
        dsimp only at h
        by_cases hsvc : svc ∈ r.service_names
        · rw [if_pos hsvc] at h
          exact absurd h (by simp)
        · rw [if_neg hsvc] at h
          cases s with
          | true => simp at h
          | false => exact ⟨rfl, Or.inr ⟨r, rfl, hsvc⟩⟩

/-- C6: whenever the resolved cache (resp. origin) resource finds no
non-public namespace contributing a `used_in_scitokens_conf` entry, the
generated SciTokens config is exactly the placeholder: one dummy issuer block
(`https://scitokens.org/nonexistent`, `/no-issuers-found`) and an `audience`
line with an empty list -- never zero issuer blocks. -/
theorem c6_dummy_issuer_block :
    (∀ gd fqdn s r,
       _get_resource_with_service fqdn XROOTD_CACHE_SERVER gd.topology s = .ok (some r) →
       scitokens_collect_cache gd.stashcache_by_vo_name r = ([], []) →
       generate_cache_scitokens gd fqdn s
         = .ok ("[Global]\naudience = \n\n[Issuer https://scitokens.org/nonexistent]\n"
             ++ "issuer = https://scitokens.org/nonexistent\nbase_path = /no-issuers-found\n"))
    ∧ (∀ gd fqdn s r,
       _get_resource_with_service fqdn XROOTD_ORIGIN_SERVER gd.topology s = .ok (some r) →
       scitokens_collect_origin gd.stashcache_by_vo_name r = ([], []) →
       generate_origin_scitokens gd fqdn s
         = .ok ("[Global]\naudience = \n\n[Issuer https://scitokens.org/nonexistent]\n"
             ++ "issuer = https://scitokens.org/nonexistent\nbase_path = /no-issuers-found\n"
             ++ "map_subject = False\n")) := by
  constructor
  · intro gd fqdn s r h1 h2
    unfold generate_cache_scitokens
    rw [h1]
    show cache_scitokens_for_resource gd r = _
    simp only [cache_scitokens_for_resource, h2]
    rfl
  · intro gd fqdn s r h1 h2
    unfold generate_origin_scitokens
    rw [h1]
    show origin_scitokens_for_resource gd r = _
    simp only [origin_scitokens_for_resource, h2]
    rfl

/-- C6 witness: the theorem applied at a snapshot with one registered
cache+origin node and an empty VO registry. -/
theorem c6_dummy_issuer_block_witness :
    _get_resource_with_service (some "c.example") XROOTD_CACHE_SERVER gdOneNode.topology false
        = .ok (some resCacheOrigin)
    ∧ scitokens_collect_cache gdOneNode.stashcache_by_vo_name resCacheOrigin = ([], [])
    ∧ generate_cache_scitokens gdOneNode (some "c.example") false
        = .ok ("[Global]\naudience = \n\n[Issuer https://scitokens.org/nonexistent]\n"
            ++ "issuer = https://scitokens.org/nonexistent\nbase_path = /no-issuers-found\n")
    ∧ generate_origin_scitokens gdOneNode (some "c.example") false
        = .ok ("[Global]\naudience = \n\n[Issuer https://scitokens.org/nonexistent]\n"
            ++ "issuer = https://scitokens.org/nonexistent\nbase_path = /no-issuers-found\n"
            ++ "map_subject = False\n") :=
  ⟨rfl, rfl,
   c6_dummy_issuer_block.1 gdOneNode (some "c.example") false resCacheOrigin rfl rfl,
   c6_dummy_issuer_block.2 gdOneNode (some "c.example") false resCacheOrigin rfl rfl⟩

/-- C10: both SciTokens generators return the empty string without raising
when the fqdn is `None` or empty (for either suppress value), and any raised
error is a lookup error: it requires a non-empty fqdn, `suppress_errors =
False`, and either an unregistered fqdn or a resource lacking the required
service. -/
theorem c10_scitokens_lookup_only :
    (∀ gd s, generate_cache_scitokens gd none s = .ok ""
       ∧ generate_cache_scitokens gd (some "") s = .ok ""
       ∧ generate_origin_scitokens gd none s = .ok ""
       ∧ generate_origin_scitokens gd (some "") s = .ok "")
    ∧ (∀ gd fqdn s e, generate_cache_scitokens gd fqdn s = .error e →
        ∃ f, fqdn = some f ∧ f ≠ "" ∧ s = false
          ∧ (gd.topology.safe_get_resource_by_fqdn f = none
             ∨ ∃ r, gd.topology.safe_get_resource_by_fqdn f = some r
                 ∧ XROOTD_CACHE_SERVER ∉ r.service_names))
    ∧ (∀ gd fqdn s e, generate_origin_scitokens gd fqdn s = .error e →
        ∃ f, fqdn = some f ∧ f ≠ "" ∧ s = false
          ∧ (gd.topology.safe_get_resource_by_fqdn f = none
             ∨ ∃ r, gd.topology.safe_get_resource_by_fqdn f = some r
                 ∧ XROOTD_ORIGIN_SERVER ∉ r.service_names)) := by
  refine ⟨fun gd s => ⟨rfl, rfl, rfl, rfl⟩, ?_, ?_⟩
  · intro gd fqdn s e h
    unfold generate_cache_scitokens at h
    cases hres : _get_resource_with_service fqdn XROOTD_CACHE_SERVER gd.topology s with
    | error e2 => exact get_resource_with_service_error_inv fqdn _ _ s e2 hres
    | ok o =>
      rw [hres] at h
      cases o with
      | none => exact absurd h (by simp)
      | some r =>
        rcases cache_scitokens_for_resource_ok gd r with ⟨out, hout⟩
        dsimp only at h
        rw [hout] at h
        exact absurd h (by simp)
  · intro gd fqdn s e h
    unfold generate_origin_scitokens at h
    cases hres : _get_resource_with_service fqdn XROOTD_ORIGIN_SERVER gd.topology s with
    | error e2 => exact get_resource_with_service_error_inv fqdn _ _ s e2 hres
    | ok o =>
      rw [hres] at h
      cases o with
      | none => exact absurd h (by simp)
      | some r =>
        rcases origin_scitokens_for_resource_ok gd r with ⟨out, hout⟩
        dsimp only at h
        rw [hout] at h
        exact absurd h (by simp)

/-- C10 witness: the error-inversion part applied at a snapshot with no
registered nodes and the fqdn `x`. -/
theorem c10_scitokens_lookup_only_witness :
    generate_cache_scitokens gdEmpty (some "x") false = .error "ResourceNotRegistered: x"
    ∧ ∃ f, (some "x" : Option String) = some f ∧ f ≠ "" ∧ (false : Bool) = false
        ∧ (gdEmpty.topology.safe_get_resource_by_fqdn f = none
           ∨ ∃ r, gdEmpty.topology.safe_get_resource_by_fqdn f = some r
               ∧ XROOTD_CACHE_SERVER ∉ r.service_names) :=
  ⟨rfl, c10_scitokens_lookup_only.2.1 gdEmpty (some "x") false "ResourceNotRegistered: x" rfl⟩

/-- C7: in `public_origin` mode, once the origin resource is resolved, the
output is the warnings, then the per-DN-identity comment+line pairs, and only
then -- when the public-path set is non-empty -- a blank separator and the
single `u *` line with the sorted public paths; when the public-path set is
empty the `u *` block and its separator are absent. -/
theorem c7_public_block_placement (gd : GlobalData) (fqdn : Option String) (s : Bool)
    (r : Resource)
    (h : _get_resource_with_service fqdn XROOTD_ORIGIN_SERVER gd.topology s = .ok (some r)) :
    ((origin_authfile_parts gd r true).public_paths ≠ [] →
       generate_origin_authfile gd fqdn s true
         = .ok (String.intercalate "\n"
             ((origin_authfile_parts gd r true).warnings
               ++ origin_id_lines (origin_authfile_parts gd r true)
               ++ ["", origin_public_line (origin_authfile_parts gd r true)]) ++ "\n"))
    ∧ ((origin_authfile_parts gd r true).public_paths = [] →
       (origin_authfile_parts gd r true).id_to_paths ≠ [] →
       generate_origin_authfile gd fqdn s true
         = .ok (String.intercalate "\n"
             ((origin_authfile_parts gd r true).warnings
               ++ origin_id_lines (origin_authfile_parts gd r true)) ++ "\n")) := by
  have hrun : generate_origin_authfile gd fqdn s true = origin_authfile_run gd (some r) true := by
    cases fqdn with
    | none => exact absurd h (by simp [_get_resource_with_service])
    | some f =>
      by_cases hf : f = ""
      · rw [hf] at h
        exact absurd h (by simp [_get_resource_with_service])
      · unfold generate_origin_authfile
        dsimp only
        rw [if_neg hf, h]
  constructor
  · intro hpub
    rw [hrun]
    simp only [origin_authfile_run]
    rw [if_neg (fun hcon => hpub hcon.2), if_pos (And.intro trivial hpub)]
  · intro hpub hid
    rw [hrun]
    simp only [origin_authfile_run]
    rw [if_neg (fun hcon => hid hcon.1), if_neg (fun hcon => hcon.2 hpub)]

/-- C7 witness: the theorem applied at a snapshot with one origin node and
one public namespace. -/
theorem c7_public_block_placement_witness :
    _get_resource_with_service (some "o.example") XROOTD_ORIGIN_SERVER gdPubOrigin.topology false
        = .ok (some resOrigin)
    ∧ (origin_authfile_parts gdPubOrigin resOrigin true).public_paths ≠ []
    ∧ generate_origin_authfile gdPubOrigin (some "o.example") false true
        = .ok "\nu * /pub lr\n" := by
  refine ⟨rfl, by decide, ?_⟩
  exact ((c7_public_block_placement gdPubOrigin (some "o.example") false resOrigin rfl).1
    (by decide)).trans rfl

/-- C8: the claim says CredentialGeneration validation failures and authz
parse failures are never raised and every other well-formed namespace of the
VO stays available.  Evaluation at the failing inputs: (1) a
`CredentialGeneration` validation failure makes
`data_federation.StashCache.load_new_yaml` raise `TypeError` (its
`self.errors += {...}` applies `+=` to a `set`); (2) even for the
non-raising authz parse failures, `VOsData.add_vo` drops the WHOLE VO when
any error was accumulated, so the well-formed namespace `/b` never reaches
the generators, despite having been loaded by the `StashCache` object. -/
theorem c8_load_error_handling_eval :
    cgVaultNoServer.validate ≠ []
    ∧ DataFederation.load_new_yaml "vo1" [nsYamlBadCG]
        = .error "TypeError: unsupported operand types for +=: set and set"
    ∧ (VosData.StashCache.make "vo1" scYamlMixed).errors ≠ []
    ∧ lookupAssoc "/b" (VosData.StashCache.make "vo1" scYamlMixed).namespaces
        = some { path := "/b", vo_name := "vo1", allowed_origins := [], allowed_caches := [],
                 authz_list := [.publicAuth], writeback := none, dirlist := none }
    ∧ VOsData.add_vo [] "vo1" (some scYamlMixed) = [] :=
  ⟨by decide, rfl, by decide, rfl, rfl⟩

/-- C9: in a list-shape load declaring the same path twice, the first
declaration's Namespace is the one stored, an error string naming the
duplicate path and the VO of the original declaration is recorded, and the
load completes without raising -- in the `vos_data.py` loader (a total
function here) and in the `data_federation.py` loader (which returns `.ok`). -/
theorem c9_duplicate_path_first_wins (vo p : String) (d1 d2 : NsYaml)
    (h1 : d1.path = some p) (h2 : d2.path = some p)
    (hcg : d1.credential_generation = none) :
    (lookupAssoc p (VosData.load_new_yaml vo [d1, d2]).namespaces
       = some { path := p, vo_name := vo,
                allowed_origins := d1.allowed_origins, allowed_caches := d1.allowed_caches,
                authz_list := (VosData.parse_authz_list p d1.authorizations []).1,
                writeback := d1.writeback, dirlist := d1.dirlist })
    ∧ ("Namespace #1: Redefining " ++ p ++ "; original was defined in " ++ vo)
        ∈ (VosData.load_new_yaml vo [d1, d2]).errors
    ∧ (∃ st, DataFederation.load_new_yaml vo [d1, d2] = .ok st
        ∧ lookupAssoc p st.namespaces
            = some { path := p, vo_name := vo,
                     allowed_origins := d1.allowed_origins,
                     allowed_caches := d1.allowed_caches,
                     authz_list := (DataFederation.parse_authz_list p d1.authorizations []).1,
                     writeback := d1.writeback, dirlist := d1.dirlist,
                     credential_generation := none }
        ∧ ("Namespace #1: Redefining " ++ p ++ "; original was defined in " ++ vo)
            ∈ st.errors) := by
  have hvos : VosData.load_new_yaml vo [d1, d2]
      = { namespaces := [(p, { path := p, vo_name := vo,
                               allowed_origins := d1.allowed_origins,
                               allowed_caches := d1.allowed_caches,
                               authz_list := (VosData.parse_authz_list p d1.authorizations []).1,
                               writeback := d1.writeback, dirlist := d1.dirlist })],
          errors := addToSet
              ("Namespace #" ++ toString (0 + 1) ++ ": Redefining " ++ p
                ++ "; original was defined in " ++ vo)
              (VosData.parse_authz_list p d1.authorizations []).2 } := by
    simp [VosData.load_new_yaml, VosData.load_new_yaml_go, h1, h2, lookupAssoc]
  have hdf : DataFederation.load_new_yaml vo [d1, d2]
      = .ok { namespaces := [(p, { path := p, vo_name := vo,
                                   allowed_origins := d1.allowed_origins,
                                   allowed_caches := d1.allowed_caches,
                                   authz_list :=
                                     (DataFederation.parse_authz_list p d1.authorizations []).1,
                                   writeback := d1.writeback, dirlist := d1.dirlist,
                                   credential_generation := none })],
              errors := addToSet
                  ("Namespace #" ++ toString (0 + 1) ++ ": Redefining " ++ p
                    ++ "; original was defined in " ++ vo)
                  (DataFederation.parse_authz_list p d1.authorizations []).2 } := by
    simp [DataFederation.load_new_yaml, DataFederation.load_new_yaml_go, h1, h2, hcg,
      lookupAssoc]
  refine ⟨?_, ?_, ?_⟩
  · rw [hvos]
    simp [lookupAssoc]
  · rw [hvos]
    exact mem_addToSet_self _ _
  · refine ⟨_, hdf, ?_, ?_⟩
    · simp [lookupAssoc]
    · exact mem_addToSet_self _ _

/-- C9 witness: the theorem applied to two concrete declarations of `/p`. -/
theorem c9_duplicate_path_first_wins_witness :
    lookupAssoc "/p" (VosData.load_new_yaml "vo9" [nsYamlDup1, nsYamlDup2]).namespaces
        = some { path := "/p", vo_name := "vo9",
                 allowed_origins := ["o1"], allowed_caches := ["c1"],
                 authz_list := (VosData.parse_authz_list "/p" nsYamlDup1.authorizations []).1,
                 writeback := none, dirlist := none }
    ∧ ("Namespace #1: Redefining /p; original was defined in vo9")
        ∈ (VosData.load_new_yaml "vo9" [nsYamlDup1, nsYamlDup2]).errors :=
  ⟨(c9_duplicate_path_first_wins "vo9" "/p" nsYamlDup1 nsYamlDup2 rfl rfl rfl).1,
   (c9_duplicate_path_first_wins "vo9" "/p" nsYamlDup1 nsYamlDup2 rfl rfl rfl).2.1⟩
